import Mathlib

/-!
A verification development for the `catalogue` input pipeline
(`pkg/catalogue/input.go`): reading a template/workflow definition from
disk, validating it against a schema, classifying it as a template or a
workflow, and dispatching compilation to the kind-specific sub-compiler.

External collaborators (the `templates` and `workflows` sub-compilers,
the file system, the YAML parser and the JSON-schema validator) are not
part of the translated unit; they are modelled as opaque stand-in data
and oracle functions supplied as parameters, so that every behaviour of
the translated code is quantified over all collaborator behaviours.
-/

/-- Go error values as produced by the `errors` package used in the code:
`errors.New`/`errors.Errorf` build a leaf error from a message, and
`errors.Wrap err msg` builds a chained error that keeps the original
error as its cause.  External errors (I/O, parser, sub-compilers) are
arbitrary values of this type. -/
inductive GoError where
  | new : String → GoError
  | wrap : GoError → String → GoError
  deriving DecidableEq, Repr

/-- The message of an error: `errors.Wrap` renders as
`msg ++ ": " ++ cause.Error()` (the `pkg/errors` convention). -/
def GoError.message : GoError → String
  | .new s => s
  | .wrap e s => s ++ ": " ++ e.message

/-- The cause of an error, as recovered by error chaining
(`errors.Cause` / `Unwrap`): a wrapped error exposes the error it
wraps, a leaf error has no cause. -/
def GoError.cause : GoError → Option GoError
  | .new _ => none
  | .wrap e _ => some e

namespace quarks

/-- Modelled from the spec: `quarks.Info`, the descriptive metadata block
(name, author, severity, tags), opaque to this unit. -/
structure Info where
  raw : String := ""
  deriving DecidableEq, Repr

end quarks

namespace templates

/-- Modelled from the spec: an element of the DNS request collection,
opaque to this unit. -/
structure DNSRequest where
  raw : String := ""
  deriving DecidableEq, Repr

/-- Modelled from the spec: an element of the HTTP request collections,
opaque to this unit. -/
structure HTTPRequest where
  raw : String := ""
  deriving DecidableEq, Repr

/-- Modelled from the spec: `templates.Template`, the template-shaped
payload embedded into `Input`.  Only its three request-kind collections
are inspected by this unit (`getType` checks their emptiness). -/
structure Template where
  DNS : List DNSRequest := []
  HTTP : List HTTPRequest := []
  HTTPRequests : List HTTPRequest := []
  deriving DecidableEq, Repr

/-- Modelled from the spec: the compiled template artifact, produced by
the external template sub-compiler, opaque to this unit. -/
structure CompiledTemplate where
  raw : String := ""
  deriving DecidableEq, Repr

end templates

namespace workflows

/-- Modelled from the spec: an element of the workflow logic collection,
opaque to this unit. -/
structure LogicItem where
  raw : String := ""
  deriving DecidableEq, Repr

/-- Modelled from the spec: `workflows.Workflow`, the workflow-shaped
payload embedded into `Input`.  Only its logic collection is inspected
by this unit (`getType` checks its emptiness). -/
structure Workflow where
  Logic : List LogicItem := []
  deriving DecidableEq, Repr

/-- Modelled from the spec: the compiled workflow artifact, produced by
the external workflow sub-compiler, opaque to this unit. -/
structure CompiledWorkflow where
  raw : String := ""
  deriving DecidableEq, Repr

end workflows

/-- Modelled from the spec: `Catalogue`, the collaborating service passed
by reference into `Compile` and handed to sub-compilers as the Resolver
and (for workflows) the Compiler; opaque to this unit. -/
structure Catalogue where
  raw : String := ""
  deriving DecidableEq, Repr

namespace templates

/-- `templates.CompileOptions`: the configuration bundle handed to the
template sub-compiler (identifier, metadata, path, Resolver). -/
structure CompileOptions where
  ID : String
  Info : quarks.Info
  Path : String
  Resolver : Catalogue
  deriving DecidableEq, Repr

end templates

namespace workflows

/-- `workflows.CompileOptions`: the configuration bundle handed to the
workflow sub-compiler (identifier, metadata, path, Resolver, and
additionally the Compiler used for nested step compilation). -/
structure CompileOptions where
  ID : String
  Info : quarks.Info
  Path : String
  Resolver : Catalogue
  Compiler : Catalogue
  deriving DecidableEq, Repr

end workflows

/-- `Input` is the input read from the template file: the unique `ID`,
the `Info` metadata, and the template and workflow structures embedded
by value (Go field promotion is rendered as explicit access through the
`Template` / `Workflow` fields). -/
structure Input where
  ID : String := ""
  Info : quarks.Info := {}
  Template : templates.Template := {}
  Workflow : workflows.Workflow := {}
  deriving DecidableEq, Repr

/-- `Type` in the source: `type Type int`, so the model is `Int` (the
failure branch of `getType` returns the out-of-range value `-1`). -/
abbrev InputType := Int

/-- `TemplateInputType Type = iota` — the first enumerator, `0`. -/
def TemplateInputType : InputType := 0

/-- `WorkflowInputType` — the second enumerator, `1`. -/
def WorkflowInputType : InputType := 1

/-- `CompiledInput` is the compiled version of an input: the `Type` tag
(field renamed `Type'` because `Type` is reserved in Lean) and the two
embedded payload pointers, rendered as `Option` fields whose `none`
state is the Go nil pointer. -/
structure CompiledInput where
  Type' : InputType
  CompiledTemplate : Option templates.CompiledTemplate := none
  CompiledWorkflow : Option workflows.CompiledWorkflow := none
  deriving DecidableEq, Repr

/-- `getType` returns the type of input provided based on various
attributes: template-shaped request collections are checked first, then
the workflow logic collection; `(-1, false)` when neither is populated. -/
def Input.getType (i : Input) : InputType × Bool :=
  if i.Template.DNS.length > 0 || i.Template.HTTP.length > 0
      || i.Template.HTTPRequests.length > 0 then
    (TemplateInputType, true)
  else if i.Workflow.Logic.length > 0 then
    (WorkflowInputType, true)
  else
    (-1, false)

/-- The type of the external template sub-compiler
(`templates.Template.Compile`), supplied as an oracle. -/
abbrev TemplateCompiler :=
  templates.Template → templates.CompileOptions → Except GoError templates.CompiledTemplate

/-- The type of the external workflow sub-compiler
(`workflows.Workflow.Compile`), supplied as an oracle. -/
abbrev WorkflowCompiler :=
  workflows.Workflow → workflows.CompileOptions → Except GoError workflows.CompiledWorkflow

/-- The configuration bundle `Compile` builds for the template
sub-compiler: `templates.CompileOptions{ID: i.ID, Info: i.Info,
Path: path, Resolver: catalog}`. -/
def templateOptions (i : Input) (catalog : Catalogue) (path : String) :
    templates.CompileOptions :=
  { ID := i.ID, Info := i.Info, Path := path, Resolver := catalog }

/-- The configuration bundle `Compile` builds for the workflow
sub-compiler: `workflows.CompileOptions{ID: i.ID, Info: i.Info,
Path: path, Resolver: catalog, Compiler: catalog}`. -/
def workflowOptions (i : Input) (catalog : Catalogue) (path : String) :
    workflows.CompileOptions :=
  { ID := i.ID, Info := i.Info, Path := path, Resolver := catalog, Compiler := catalog }

/-- `Compile` with the pointer receiver threaded explicitly: the Go
method takes `i *Input` and could in principle mutate it, so the model
returns the receiver state after the call next to the Go return values.
The body is a direct translation: classify, fail on `!ok`, build the
tagged `CompiledInput`, then the two sequential `if` blocks dispatching
to the sub-compilers with their error wrapping. -/
def Input.compileSt (tc : TemplateCompiler) (wc : WorkflowCompiler)
    (i : Input) (catalog : Catalogue) (path : String) :
    Input × Except GoError CompiledInput :=
  let (t, ok) := i.getType
  if !ok then
    (i, .error (GoError.new ("invalid template/workflow supplied")))
  else
    let compiled : CompiledInput := { Type' := t }
    let afterTemplate : Input × Except GoError CompiledInput :=
      if t == TemplateInputType then
        match tc i.Template (templateOptions i catalog path) with
        | .error err => (i, .error (GoError.wrap err ("could not compile template")))
        | .ok compiledTemplate =>
          (i, .ok { compiled with CompiledTemplate := some compiledTemplate })
      else
        (i, .ok compiled)
    match afterTemplate with
    | (i1, .error e) => (i1, .error e)
    | (i1, .ok compiled1) =>
      if t == WorkflowInputType then
        match wc i1.Workflow (workflowOptions i1 catalog path) with
        | .error err => (i1, .error (GoError.wrap err ("could not compile workflow")))
        | .ok compiledWorkflow =>
          (i1, .ok { compiled1 with CompiledWorkflow := some compiledWorkflow })
      else
        (i1, .ok compiled1)

/-- `Compile` returns the compiled version of the input (the Go return
values, dropping the threaded receiver state). -/
def Input.Compile (tc : TemplateCompiler) (wc : WorkflowCompiler)
    (i : Input) (catalog : Catalogue) (path : String) :
    Except GoError CompiledInput :=
  (Input.compileSt tc wc i catalog path).2

/-- The result of `gojsonschema.Validate`: a list of violation messages
in the order the validator discovers them.  `Valid()` in that library
reports `len(errors) == 0`, so the model carries only the list. -/
structure ValidationResult where
  violations : List String
  deriving DecidableEq, Repr

/-- `result.Valid()`: true exactly when the violation list is empty. -/
def ValidationResult.Valid (r : ValidationResult) : Bool :=
  r.violations.length == 0

/-- The stand-in for an open file handle (`*os.File`). -/
abbrev FileHandle := String

/-- The stand-in for the raw bytes read from the file. -/
abbrev Bytes := String

/-- The stand-in for the generic, schema-agnostic parse of the bytes
(the `interface{}` filled by `unmarshalForValidation`). -/
abbrev RawDoc := String

/-- The external effects `ReadInput` performs, supplied as oracles: file
open, full read, generic unmarshal for validation, schema validation
(with the process-wide schema loader folded in), and the strict typed
YAML decode into `Input`. -/
structure ReadInputOracle where
  openFile : String → Except GoError FileHandle
  readAll : FileHandle → Except GoError Bytes
  unmarshalForValidation : Bytes → Except GoError RawDoc
  validateSchema : RawDoc → Except GoError ValidationResult
  yamlUnmarshalInput : Bytes → Except GoError Input

/-- The error built in the schema-failure branch:
`errors.Errorf("%d errors in template: %s, skipping", len(errs), errs[0])`.
The Go index `errs[0]` is rendered as `head?` (with `""` standing for
the out-of-bounds panic value; the development proves the branch never
reaches it). -/
def validationError (errs : List String) : GoError :=
  GoError.new
    (toString errs.length ++ " errors in template: " ++ errs.head?.getD ("") ++ ", skipping")

/-- `ReadInput` reads a template input from disk returning a validated
version of the template: open, read, generic parse, schema validation
with the count-and-first-violation error, then the strict typed decode. -/
def ReadInput (o : ReadInputOracle) (path : String) : Except GoError Input := do
  let file ← o.openFile path
  let data ← o.readAll file
  let validationInput ← o.unmarshalForValidation data
  let result ← o.validateSchema validationInput
  if !result.Valid then
    throw (validationError result.violations)
  o.yamlUnmarshalInput data

/-- Whether `sub` occurs as a contiguous substring of `s` (used to state
claims about error-message content). -/
def containsSubstring (s sub : String) : Bool :=
  (List.range (s.length + 1)).any fun k => sub.data.isPrefixOf (s.data.drop k)

/-- Every classification outcome: template, workflow, or the failure
pair `(-1, false)`. -/
theorem getType_cases (i : Input) :
    i.getType = (TemplateInputType, true) ∨ i.getType = (WorkflowInputType, true) ∨
      i.getType = (-1, false) := by
  unfold Input.getType
  split
  · exact Or.inl rfl
  · split
    · exact Or.inr (Or.inl rfl)
    · exact Or.inr (Or.inr rfl)

theorem compileSt_template_error (tc : TemplateCompiler) (wc : WorkflowCompiler)
    (i : Input) (catalog : Catalogue) (path : String) (e : GoError)
    (h : i.getType = (TemplateInputType, true))
    (htc : tc i.Template (templateOptions i catalog path) = .error e) :
    Input.compileSt tc wc i catalog path =
      (i, .error (GoError.wrap e ("could not compile template"))) := by
  have b1 : ((TemplateInputType == TemplateInputType) : Bool) = true := by decide
  have b2 : ((TemplateInputType == WorkflowInputType) : Bool) = false := by decide
  simp [Input.compileSt, h, htc, b1, b2]

theorem compileSt_template_ok (tc : TemplateCompiler) (wc : WorkflowCompiler)
    (i : Input) (catalog : Catalogue) (path : String) (ct : templates.CompiledTemplate)
    (h : i.getType = (TemplateInputType, true))
    (htc : tc i.Template (templateOptions i catalog path) = .ok ct) :
    Input.compileSt tc wc i catalog path =
      (i, .ok { Type' := TemplateInputType, CompiledTemplate := some ct,
                CompiledWorkflow := none }) := by
  have b1 : ((TemplateInputType == TemplateInputType) : Bool) = true := by decide
  have b2 : ((TemplateInputType == WorkflowInputType) : Bool) = false := by decide
  simp [Input.compileSt, h, htc, b1, b2]

theorem compileSt_workflow_error (tc : TemplateCompiler) (wc : WorkflowCompiler)
    (i : Input) (catalog : Catalogue) (path : String) (e : GoError)
    (h : i.getType = (WorkflowInputType, true))
    (hwc : wc i.Workflow (workflowOptions i catalog path) = .error e) :
    Input.compileSt tc wc i catalog path =
      (i, .error (GoError.wrap e ("could not compile workflow"))) := by
  have b1 : ((WorkflowInputType == TemplateInputType) : Bool) = false := by decide
  have b2 : ((WorkflowInputType == WorkflowInputType) : Bool) = true := by decide
  simp [Input.compileSt, h, hwc, b1, b2]

theorem compileSt_workflow_ok (tc : TemplateCompiler) (wc : WorkflowCompiler)
    (i : Input) (catalog : Catalogue) (path : String) (cw : workflows.CompiledWorkflow)
    (h : i.getType = (WorkflowInputType, true))
    (hwc : wc i.Workflow (workflowOptions i catalog path) = .ok cw) :
    Input.compileSt tc wc i catalog path =
      (i, .ok { Type' := WorkflowInputType, CompiledTemplate := none,
                CompiledWorkflow := some cw }) := by
  have b1 : ((WorkflowInputType == TemplateInputType) : Bool) = false := by decide
  have b2 : ((WorkflowInputType == WorkflowInputType) : Bool) = true := by decide
  simp [Input.compileSt, h, hwc, b1, b2]

theorem compileSt_invalid (tc : TemplateCompiler) (wc : WorkflowCompiler)
    (i : Input) (catalog : Catalogue) (path : String)
    (h : i.getType = (-1, false)) :
    Input.compileSt tc wc i catalog path =
      (i, .error (GoError.new ("invalid template/workflow supplied"))) := by
  simp [Input.compileSt, h]

/-- A concrete template-shaped input (one DNS request, nothing else). -/
def inputT : Input := { Template := { DNS := [{}] } }

/-- A concrete workflow-shaped input (one logic item, nothing else). -/
def inputW : Input := { Workflow := { Logic := [{}] } }

/-- A concrete input populating both shapes. -/
def inputBoth : Input := { Template := { HTTP := [{}] }, Workflow := { Logic := [{}] } }

/-- A template sub-compiler that always succeeds. -/
def tcOk : TemplateCompiler := fun _ _ => .ok {}

/-- A workflow sub-compiler that always succeeds. -/
def wcOk : WorkflowCompiler := fun _ _ => .ok {}

/-- A template sub-compiler that always fails. -/
def tcBad : TemplateCompiler := fun _ _ => .error (GoError.new ("tboom"))

/-- A workflow sub-compiler that always fails. -/
def wcBad : WorkflowCompiler := fun _ _ => .error (GoError.new ("wboom"))

/-- C1: classification follows the fixed precedence: any non-empty
template-shaped request collection (DNS, HTTP or HTTPRequests) yields
Template with no condition on the workflow logic collection; with all
three empty, a non-empty logic collection yields Workflow; and an input
with both a non-empty template collection and a non-empty logic
collection is classified Template. -/
theorem C1_getType_precedence :
    (∀ i : Input,
        (i.Template.DNS.length > 0 ∨ i.Template.HTTP.length > 0 ∨
          i.Template.HTTPRequests.length > 0) →
        i.getType = (TemplateInputType, true))
    ∧ (∀ i : Input,
        i.Template.DNS.length = 0 → i.Template.HTTP.length = 0 →
        i.Template.HTTPRequests.length = 0 → i.Workflow.Logic.length > 0 →
        i.getType = (WorkflowInputType, true))
    ∧ (∀ i : Input,
        (i.Template.DNS.length > 0 ∨ i.Template.HTTP.length > 0 ∨
          i.Template.HTTPRequests.length > 0) →
        i.Workflow.Logic.length > 0 →
        i.getType = (TemplateInputType, true)) := by
  refine ⟨?_, ?_, ?_⟩
  · intro i h
    rcases h with h | h | h <;> simp [Input.getType, h]
  · intro i h1 h2 h3 h4
    simp [Input.getType, h1, h2, h3, h4]
  · intro i h _
    rcases h with h | h | h <;> simp [Input.getType, h]

/-- C1 witness: the precedence theorem evaluated on concrete inputs,
including the both-shapes input which classifies as Template. -/
theorem C1_witness :
    inputT.getType = (TemplateInputType, true) ∧
    inputW.getType = (WorkflowInputType, true) ∧
    inputBoth.getType = (TemplateInputType, true) :=
  ⟨C1_getType_precedence.1 inputT (by decide),
   C1_getType_precedence.2.1 inputW rfl rfl rfl (by decide),
   C1_getType_precedence.2.2 inputBoth (by decide) (by decide)⟩

/-- C5 counterexample: on the fully empty input, `Compile` does fail,
but the error message is the literal "invalid template/workflow
supplied"; it does not contain the phrase "unrecognized definition
shape" that the claim names. -/
theorem C5_counterexample :
    Input.Compile tcOk wcOk {} {} ("p") =
      .error (GoError.new ("invalid template/workflow supplied")) ∧
    (GoError.new ("invalid template/workflow supplied")).message =
      "invalid template/workflow supplied" ∧
    containsSubstring (GoError.new ("invalid template/workflow supplied")).message
      ("unrecognized definition shape") = false := by
  refine ⟨rfl, rfl, ?_⟩
  decide

/-- C5 (amended): for every input whose three template-shaped request
collections and whose workflow logic collection are all empty,
classification fails (`getType` returns ok = false, with the
out-of-range tag -1, so neither kind is defaulted to), and `Compile`
returns no `CompiledInput` but the explicit error "invalid
template/workflow supplied", for every sub-compiler behaviour. -/
theorem C5_empty_input_rejected (i : Input)
    (hd : i.Template.DNS = []) (hh : i.Template.HTTP = [])
    (hr : i.Template.HTTPRequests = []) (hl : i.Workflow.Logic = []) :
    i.getType = (-1, false) ∧
    ∀ (tc : TemplateCompiler) (wc : WorkflowCompiler) (catalog : Catalogue)
      (path : String),
      Input.Compile tc wc i catalog path =
        .error (GoError.new ("invalid template/workflow supplied")) := by
  have hg : i.getType = (-1, false) := by simp [Input.getType, hd, hh, hr, hl]
  refine ⟨hg, fun tc wc catalog path => ?_⟩
  unfold Input.Compile
  rw [compileSt_invalid tc wc i catalog path hg]

/-- C5 witness: the amended theorem evaluated on the empty input with
concrete sub-compilers. -/
theorem C5_witness :
    ({} : Input).getType = (-1, false) ∧
    Input.Compile tcOk wcOk {} {} ("p") =
      .error (GoError.new ("invalid template/workflow supplied")) :=
  ⟨(C5_empty_input_rejected {} rfl rfl rfl rfl).1,
   (C5_empty_input_rejected {} rfl rfl rfl rfl).2 tcOk wcOk {} ("p")⟩

theorem Compile_template_error (tc : TemplateCompiler) (wc : WorkflowCompiler)
    (i : Input) (catalog : Catalogue) (path : String) (e : GoError)
    (h : i.getType = (TemplateInputType, true))
    (htc : tc i.Template (templateOptions i catalog path) = .error e) :
    Input.Compile tc wc i catalog path =
      .error (GoError.wrap e ("could not compile template")) := by
  unfold Input.Compile
  rw [compileSt_template_error tc wc i catalog path e h htc]

theorem Compile_template_ok (tc : TemplateCompiler) (wc : WorkflowCompiler)
    (i : Input) (catalog : Catalogue) (path : String) (ct : templates.CompiledTemplate)
    (h : i.getType = (TemplateInputType, true))
    (htc : tc i.Template (templateOptions i catalog path) = .ok ct) :
    Input.Compile tc wc i catalog path =
      .ok { Type' := TemplateInputType, CompiledTemplate := some ct,
            CompiledWorkflow := none } := by
  unfold Input.Compile
  rw [compileSt_template_ok tc wc i catalog path ct h htc]

theorem Compile_workflow_error (tc : TemplateCompiler) (wc : WorkflowCompiler)
    (i : Input) (catalog : Catalogue) (path : String) (e : GoError)
    (h : i.getType = (WorkflowInputType, true))
    (hwc : wc i.Workflow (workflowOptions i catalog path) = .error e) :
    Input.Compile tc wc i catalog path =
      .error (GoError.wrap e ("could not compile workflow")) := by
  unfold Input.Compile
  rw [compileSt_workflow_error tc wc i catalog path e h hwc]

theorem Compile_workflow_ok (tc : TemplateCompiler) (wc : WorkflowCompiler)
    (i : Input) (catalog : Catalogue) (path : String) (cw : workflows.CompiledWorkflow)
    (h : i.getType = (WorkflowInputType, true))
    (hwc : wc i.Workflow (workflowOptions i catalog path) = .ok cw) :
    Input.Compile tc wc i catalog path =
      .ok { Type' := WorkflowInputType, CompiledTemplate := none,
            CompiledWorkflow := some cw } := by
  unfold Input.Compile
  rw [compileSt_workflow_ok tc wc i catalog path cw h hwc]

theorem Compile_invalid (tc : TemplateCompiler) (wc : WorkflowCompiler)
    (i : Input) (catalog : Catalogue) (path : String)
    (h : i.getType = (-1, false)) :
    Input.Compile tc wc i catalog path =
      .error (GoError.new ("invalid template/workflow supplied")) := by
  unfold Input.Compile
  rw [compileSt_invalid tc wc i catalog path h]

/-- C2: whenever `Compile` succeeds, exactly one of the two compiled
payload fields of the result is populated and the other is `none`
(nil); in particular a Template-classified input never populates the
workflow payload and a Workflow-classified input never populates the
template payload. -/
theorem C2_exactly_one_payload (tc : TemplateCompiler) (wc : WorkflowCompiler)
    (i : Input) (catalog : Catalogue) (path : String) (c : CompiledInput)
    (h : Input.Compile tc wc i catalog path = .ok c) :
    ((c.CompiledTemplate.isSome = true ∧ c.CompiledWorkflow = none) ∨
      (c.CompiledWorkflow.isSome = true ∧ c.CompiledTemplate = none)) ∧
    (i.getType = (TemplateInputType, true) → c.CompiledWorkflow = none) ∧
    (i.getType = (WorkflowInputType, true) → c.CompiledTemplate = none) := by
  rcases getType_cases i with hg | hg | hg
  · cases htc : tc i.Template (templateOptions i catalog path) with
    | error e =>
      rw [Compile_template_error tc wc i catalog path e hg htc] at h
      cases h
    | ok ct =>
      rw [Compile_template_ok tc wc i catalog path ct hg htc] at h
      injection h with h
      subst h
      refine ⟨Or.inl ⟨rfl, rfl⟩, fun _ => rfl, fun hw => ?_⟩
      rw [hg] at hw
      simp [TemplateInputType, WorkflowInputType] at hw
  · cases hwc : wc i.Workflow (workflowOptions i catalog path) with
    | error e =>
      rw [Compile_workflow_error tc wc i catalog path e hg hwc] at h
      cases h
    | ok cw =>
      rw [Compile_workflow_ok tc wc i catalog path cw hg hwc] at h
      injection h with h
      subst h
      refine ⟨Or.inr ⟨rfl, rfl⟩, fun ht => ?_, fun _ => rfl⟩
      rw [hg] at ht
      simp [TemplateInputType, WorkflowInputType] at ht
  · rw [Compile_invalid tc wc i catalog path hg] at h
    cases h

/-- The `CompiledInput` produced by a successful template compilation of
`inputT` with the always-succeeding sub-compilers. -/
def cOkT : CompiledInput :=
  { Type' := TemplateInputType, CompiledTemplate := some {}, CompiledWorkflow := none }

/-- C2 witness: a successful template compilation populates only the
template payload. -/
theorem C2_witness :
    (cOkT.CompiledTemplate.isSome = true ∧ cOkT.CompiledWorkflow = none) ∨
      (cOkT.CompiledWorkflow.isSome = true ∧ cOkT.CompiledTemplate = none) := by
  have h := C2_exactly_one_payload tcOk wcOk inputT {} ("p") cOkT rfl
  exact h.1

/-- C4: when the kind-appropriate sub-compiler fails, `Compile` returns
the underlying error wrapped with the kind-specific context marker
("could not compile template" / "could not compile workflow"); the
wrapped error keeps the original as its cause (error chaining, not
replacement), and its message carries both the marker and the original
message. -/
theorem C4_error_wrapping :
    (∀ (tc : TemplateCompiler) (wc : WorkflowCompiler) (i : Input)
        (catalog : Catalogue) (path : String) (e : GoError),
        i.getType = (TemplateInputType, true) →
        tc i.Template (templateOptions i catalog path) = .error e →
        Input.Compile tc wc i catalog path =
          .error (GoError.wrap e ("could not compile template")) ∧
        (GoError.wrap e ("could not compile template")).cause = some e ∧
        (GoError.wrap e ("could not compile template")).message =
          "could not compile template: " ++ e.message)
    ∧ (∀ (tc : TemplateCompiler) (wc : WorkflowCompiler) (i : Input)
        (catalog : Catalogue) (path : String) (e : GoError),
        i.getType = (WorkflowInputType, true) →
        wc i.Workflow (workflowOptions i catalog path) = .error e →
        Input.Compile tc wc i catalog path =
          .error (GoError.wrap e ("could not compile workflow")) ∧
        (GoError.wrap e ("could not compile workflow")).cause = some e ∧
        (GoError.wrap e ("could not compile workflow")).message =
          "could not compile workflow: " ++ e.message) := by
  constructor
  · intro tc wc i catalog path e hg htc
    exact ⟨Compile_template_error tc wc i catalog path e hg htc, rfl, rfl⟩
  · intro tc wc i catalog path e hg hwc
    exact ⟨Compile_workflow_error tc wc i catalog path e hg hwc, rfl, rfl⟩

/-- C4 witness: both wrapping branches evaluated with concrete failing
sub-compilers. -/
theorem C4_witness :
    (Input.Compile tcBad wcOk inputT {} ("p") =
        .error (GoError.wrap (GoError.new ("tboom")) ("could not compile template")) ∧
      (GoError.wrap (GoError.new ("tboom")) ("could not compile template")).cause =
        some (GoError.new ("tboom")) ∧
      (GoError.wrap (GoError.new ("tboom")) ("could not compile template")).message =
        "could not compile template: " ++ (GoError.new ("tboom")).message) ∧
    (Input.Compile tcOk wcBad inputW {} ("p") =
        .error (GoError.wrap (GoError.new ("wboom")) ("could not compile workflow")) ∧
      (GoError.wrap (GoError.new ("wboom")) ("could not compile workflow")).cause =
        some (GoError.new ("wboom")) ∧
      (GoError.wrap (GoError.new ("wboom")) ("could not compile workflow")).message =
        "could not compile workflow: " ++ (GoError.new ("wboom")).message) :=
  ⟨C4_error_wrapping.1 tcBad wcOk inputT {} ("p") (GoError.new ("tboom")) rfl rfl,
   C4_error_wrapping.2 tcOk wcBad inputW {} ("p") (GoError.new ("wboom")) rfl rfl⟩

/-- C7: in every successful `Compile` call, the result's tag is the
classified type, and on return the tag agrees with which payload is
populated: the tag is `TemplateInputType` exactly when the compiled
template payload is set, and `WorkflowInputType` exactly when the
compiled workflow payload is set. -/
theorem C7_tag_consistency (tc : TemplateCompiler) (wc : WorkflowCompiler)
    (i : Input) (catalog : Catalogue) (path : String) (c : CompiledInput)
    (h : Input.Compile tc wc i catalog path = .ok c) :
    c.Type' = (i.getType).1 ∧
    (c.Type' = TemplateInputType ↔ c.CompiledTemplate.isSome = true) ∧
    (c.Type' = WorkflowInputType ↔ c.CompiledWorkflow.isSome = true) := by
  rcases getType_cases i with hg | hg | hg
  · cases htc : tc i.Template (templateOptions i catalog path) with
    | error e =>
      rw [Compile_template_error tc wc i catalog path e hg htc] at h
      cases h
    | ok ct =>
      rw [Compile_template_ok tc wc i catalog path ct hg htc] at h
      injection h with h
      subst h
      refine ⟨by rw [hg], ?_, ?_⟩ <;>
        simp [TemplateInputType, WorkflowInputType]
  · cases hwc : wc i.Workflow (workflowOptions i catalog path) with
    | error e =>
      rw [Compile_workflow_error tc wc i catalog path e hg hwc] at h
      cases h
    | ok cw =>
      rw [Compile_workflow_ok tc wc i catalog path cw hg hwc] at h
      injection h with h
      subst h
      refine ⟨by rw [hg], ?_, ?_⟩ <;>
        simp [TemplateInputType, WorkflowInputType]
  · rw [Compile_invalid tc wc i catalog path hg] at h
    cases h

/-- C7 witness: the tag of the concrete successful template compilation
agrees with its populated payload. -/
theorem C7_witness :
    cOkT.Type' = (inputT.getType).1 ∧
    (cOkT.Type' = TemplateInputType ↔ cOkT.CompiledTemplate.isSome = true) ∧
    (cOkT.Type' = WorkflowInputType ↔ cOkT.CompiledWorkflow.isSome = true) :=
  C7_tag_consistency tcOk wcOk inputT {} ("p") cOkT rfl

/-- C8: every `Compile` call is all-or-nothing: for all inputs and all
sub-compiler behaviours the call returns either an error (in
particular, on a sub-compiler failure the already-built tagged wrapper
is discarded, and the returned error is the wrapped sub-compiler
error), or a `CompiledInput` with exactly one payload populated —
never a partially populated result. -/
theorem C8_all_or_nothing (tc : TemplateCompiler) (wc : WorkflowCompiler)
    (i : Input) (catalog : Catalogue) (path : String) :
    (∃ e, Input.Compile tc wc i catalog path = .error e) ∨
    (∃ c, Input.Compile tc wc i catalog path = .ok c ∧
      ((c.CompiledTemplate.isSome = true ∧ c.CompiledWorkflow = none) ∨
        (c.CompiledWorkflow.isSome = true ∧ c.CompiledTemplate = none))) := by
  rcases getType_cases i with hg | hg | hg
  · cases htc : tc i.Template (templateOptions i catalog path) with
    | error e =>
      exact Or.inl ⟨_, Compile_template_error tc wc i catalog path e hg htc⟩
    | ok ct =>
      exact Or.inr ⟨_, Compile_template_ok tc wc i catalog path ct hg htc,
        Or.inl ⟨rfl, rfl⟩⟩
  · cases hwc : wc i.Workflow (workflowOptions i catalog path) with
    | error e =>
      exact Or.inl ⟨_, Compile_workflow_error tc wc i catalog path e hg hwc⟩
    | ok cw =>
      exact Or.inr ⟨_, Compile_workflow_ok tc wc i catalog path cw hg hwc,
        Or.inr ⟨rfl, rfl⟩⟩
  · exact Or.inl ⟨_, Compile_invalid tc wc i catalog path hg⟩

/-- C10: `Compile` never mutates its receiver: with the pointer receiver
threaded explicitly, the receiver state after the call equals the input
for every outcome (success, classification failure, or sub-compiler
failure), so re-classifying after the call gives the same answer. -/
theorem C10_receiver_unchanged (tc : TemplateCompiler) (wc : WorkflowCompiler)
    (i : Input) (catalog : Catalogue) (path : String) :
    (Input.compileSt tc wc i catalog path).1 = i ∧
    ((Input.compileSt tc wc i catalog path).1).getType = i.getType := by
  rcases getType_cases i with hg | hg | hg
  · cases htc : tc i.Template (templateOptions i catalog path) with
    | error e =>
      rw [compileSt_template_error tc wc i catalog path e hg htc]
      exact ⟨rfl, rfl⟩
    | ok ct =>
      rw [compileSt_template_ok tc wc i catalog path ct hg htc]
      exact ⟨rfl, rfl⟩
  · cases hwc : wc i.Workflow (workflowOptions i catalog path) with
    | error e =>
      rw [compileSt_workflow_error tc wc i catalog path e hg hwc]
      exact ⟨rfl, rfl⟩
    | ok cw =>
      rw [compileSt_workflow_ok tc wc i catalog path cw hg hwc]
      exact ⟨rfl, rfl⟩
  · rw [compileSt_invalid tc wc i catalog path hg]
    exact ⟨rfl, rfl⟩

/-- C3: when the phases preceding the validity check succeed and the
validator reports the structure invalid, `ReadInput` returns no Input
but an error whose message reports the length of the actual violation
list and the first violation's message (which exists). -/
theorem C3_validation_error_report (o : ReadInputOracle) (path : String)
    (f : FileHandle) (data : Bytes) (v : RawDoc) (r : ValidationResult)
    (h1 : o.openFile path = .ok f) (h2 : o.readAll f = .ok data)
    (h3 : o.unmarshalForValidation data = .ok v)
    (h4 : o.validateSchema v = .ok r) (h5 : r.Valid = false) :
    r.violations.head?.isSome = true ∧
    ReadInput o path =
      .error (GoError.new (toString r.violations.length ++ " errors in template: "
        ++ r.violations.head?.getD ("") ++ ", skipping")) := by
  have hne : r.violations ≠ [] := by
    intro hnil
    simp [ValidationResult.Valid, hnil] at h5
  constructor
  · cases hv : r.violations with
    | nil => exact absurd hv hne
    | cons a l => rfl
  · simp [ReadInput, h1, h2, h3, h4, h5, validationError, Bind.bind, Except.bind,
      throw, throwThe, MonadExceptOf.throw]

/-- The violation list used by the concrete invalid-document scenario. -/
def violationsTwo : List String := ["first violation", "second violation"]

/-- A concrete oracle whose phases all succeed and whose validator finds
two violations. -/
def oracleInvalid : ReadInputOracle :=
  { openFile := fun _ => .ok ("fh"), readAll := fun _ => .ok ("raw"),
    unmarshalForValidation := fun _ => .ok ("doc"),
    validateSchema := fun _ => .ok { violations := violationsTwo },
    yamlUnmarshalInput := fun _ => .ok {} }

/-- C3 witness: the schema-failure error on the concrete two-violation
oracle. -/
theorem C3_witness :
    violationsTwo.head?.isSome = true ∧
    ReadInput oracleInvalid ("p") =
      .error (GoError.new (toString violationsTwo.length ++ " errors in template: "
        ++ violationsTwo.head?.getD ("") ++ ", skipping")) :=
  C3_validation_error_report oracleInvalid ("p") ("fh") ("raw") ("doc")
    { violations := violationsTwo } rfl rfl rfl rfl rfl

/-- C9: whenever the validation result is reported invalid, the
violation list it carries is non-empty, so the first-element access in
`ReadInput`'s schema-failure branch never touches an element of an
empty list. -/
theorem C9_first_violation_exists (r : ValidationResult) (h : r.Valid = false) :
    r.violations ≠ [] ∧ r.violations.head?.isSome = true := by
  have hne : r.violations ≠ [] := by
    intro hnil
    simp [ValidationResult.Valid, hnil] at h
  refine ⟨hne, ?_⟩
  cases hv : r.violations with
  | nil => exact absurd hv hne
  | cons a l => rfl

/-- C9 witness: a concrete invalid result carries its violation. -/
theorem C9_witness :
    ({ violations := ["v"] } : ValidationResult).violations ≠ [] ∧
    ({ violations := ["v"] } : ValidationResult).violations.head?.isSome = true :=
  C9_first_violation_exists { violations := ["v"] } rfl

/-- C6: `ReadInput` performs its phases in a fixed order with early
exit: an open failure is surfaced unchanged whatever the later phases
do; a read failure likewise; a generic parse failure is surfaced as the
parser's own error before the schema check runs (the result does not
depend on the validator or the typed decoder); and only after the
validator reports the structure valid does the typed decode run, with
its result — including any decode error — returned as is. -/
theorem C6_phase_order :
    (∀ (op : String → Except GoError FileHandle)
        (ra : FileHandle → Except GoError Bytes)
        (um : Bytes → Except GoError RawDoc)
        (vs : RawDoc → Except GoError ValidationResult)
        (yu : Bytes → Except GoError Input) (path : String) (e : GoError),
        op path = .error e →
        ReadInput { openFile := op, readAll := ra, unmarshalForValidation := um,
                    validateSchema := vs, yamlUnmarshalInput := yu } path = .error e)
    ∧ (∀ (op : String → Except GoError FileHandle)
        (ra : FileHandle → Except GoError Bytes)
        (um : Bytes → Except GoError RawDoc)
        (vs : RawDoc → Except GoError ValidationResult)
        (yu : Bytes → Except GoError Input) (path : String) (f : FileHandle)
        (e : GoError),
        op path = .ok f → ra f = .error e →
        ReadInput { openFile := op, readAll := ra, unmarshalForValidation := um,
                    validateSchema := vs, yamlUnmarshalInput := yu } path = .error e)
    ∧ (∀ (op : String → Except GoError FileHandle)
        (ra : FileHandle → Except GoError Bytes)
        (um : Bytes → Except GoError RawDoc) (path : String) (f : FileHandle)
        (data : Bytes) (e : GoError),
        op path = .ok f → ra f = .ok data → um data = .error e →
        ∀ (vs : RawDoc → Except GoError ValidationResult)
          (yu : Bytes → Except GoError Input),
          ReadInput { openFile := op, readAll := ra, unmarshalForValidation := um,
                      validateSchema := vs, yamlUnmarshalInput := yu } path = .error e)
    ∧ (∀ (o : ReadInputOracle) (path : String) (f : FileHandle) (data : Bytes)
        (v : RawDoc) (r : ValidationResult),
        o.openFile path = .ok f → o.readAll f = .ok data →
        o.unmarshalForValidation data = .ok v → o.validateSchema v = .ok r →
        r.Valid = true →
        ReadInput o path = o.yamlUnmarshalInput data) := by
  refine ⟨?_, ?_, ?_, ?_⟩
  · intro op ra um vs yu path e h1
    simp [ReadInput, h1, Bind.bind, Except.bind]
  · intro op ra um vs yu path f e h1 h2
    simp [ReadInput, h1, h2, Bind.bind, Except.bind]
  · intro op ra um path f data e h1 h2 h3 vs yu
    simp [ReadInput, h1, h2, h3, Bind.bind, Except.bind]
  · intro o path f data v r h1 h2 h3 h4 h5
    simp [ReadInput, h1, h2, h3, h4, h5, Bind.bind, Except.bind, pure, Except.pure]

/-- The I/O error used by the concrete open-failure scenario. -/
def eIO : GoError := GoError.new ("open failed")

/-- The I/O error used by the concrete read-failure scenario. -/
def eRead : GoError := GoError.new ("read failed")

/-- The parser error used by the concrete malformed-document scenario. -/
def eParse : GoError := GoError.new ("malformed document")

/-- A concrete oracle on which every phase succeeds and the validator
finds no violation. -/
def oracleValid : ReadInputOracle :=
  { openFile := fun _ => .ok ("fh"), readAll := fun _ => .ok ("raw"),
    unmarshalForValidation := fun _ => .ok ("doc"),
    validateSchema := fun _ => .ok { violations := [] },
    yamlUnmarshalInput := fun _ => .ok inputT }

/-- The concrete oracle whose open fails. -/
def oracleOpenFail : ReadInputOracle := { oracleValid with openFile := fun _ => .error eIO }

/-- The concrete oracle whose read fails. -/
def oracleReadFail : ReadInputOracle := { oracleValid with readAll := fun _ => .error eRead }

/-- The concrete oracle whose generic parse fails. -/
def oracleParseFail : ReadInputOracle :=
  { oracleValid with unmarshalForValidation := fun _ => .error eParse }

/-- C6 witness: each phase-order conjunct evaluated on its concrete
oracle. -/
theorem C6_witness :
    ReadInput oracleOpenFail ("p") = .error eIO ∧
    ReadInput oracleReadFail ("p") = .error eRead ∧
    ReadInput oracleParseFail ("p") = .error eParse ∧
    ReadInput oracleValid ("p") = oracleValid.yamlUnmarshalInput ("raw") :=
  ⟨C6_phase_order.1 oracleOpenFail.openFile oracleOpenFail.readAll
      oracleOpenFail.unmarshalForValidation oracleOpenFail.validateSchema
      oracleOpenFail.yamlUnmarshalInput ("p") eIO rfl,
   C6_phase_order.2.1 oracleReadFail.openFile oracleReadFail.readAll
      oracleReadFail.unmarshalForValidation oracleReadFail.validateSchema
      oracleReadFail.yamlUnmarshalInput ("p") ("fh") eRead rfl rfl,
   C6_phase_order.2.2.1 oracleParseFail.openFile oracleParseFail.readAll
      oracleParseFail.unmarshalForValidation ("p") ("fh") ("raw") eParse rfl rfl rfl
      oracleParseFail.validateSchema oracleParseFail.yamlUnmarshalInput,
   C6_phase_order.2.2.2 oracleValid ("p") ("fh") ("raw") ("doc") { violations := [] }
      rfl rfl rfl rfl rfl⟩
